import Mathlib

set_option maxRecDepth 8192

/-!
Verification of `src/rust_translation/nas_manager/src/main.rs`.

The program is a single `main` that calls `QApplication::init` with a
closure; the closure constructs one `QWidget` (`new_0a`), resizes it to
320 x 240 (`resize_2a`), sets its window title (`set_window_title`),
shows it (`show`), and enters the blocking event loop
(`QApplication::exec`), returning the loop's status.

The GUI toolkit (the `qt_widgets` crate) is an external black-box
dependency: we embed the program as the sequence of toolkit calls it
issues, parameterised by the toolkit's observable behaviour
(initialization success or headless failure, and the event-loop status).
-/

/-- Toolkit calls issued by the program, in issue order; each constructor
mirrors a call site in `main.rs`. -/
inductive QtEvent where
  | initApp
  | newWidget (parent : Option Unit)
  | resize (w h : Int)
  | setWindowTitle (title : String)
  | showCall
  | execLoop
deriving DecidableEq, Repr

/-- The window-title string of `main.rs` line 12. -/
def helloTitle : String := "Hello Qt from Rust!"

/-- `QWidget::new_0a` is the zero-argument overload of the `QWidget`
constructor; its C++ default parent is the null pointer, so the widget is
constructed parentless (top-level). -/
def new_0a : QtEvent := QtEvent.newWidget none

/-- `resize_2a` is the two-argument (width, height) overload of
`QWidget::resize`. -/
def resize_2a (w h : Int) : QtEvent := QtEvent.resize w h

/-- `set_window_title` wraps `QWidget::setWindowTitle`. -/
def set_window_title (t : String) : QtEvent := QtEvent.setWindowTitle t

/-- Modelled from the spec: observable behaviour of the external GUI
toolkit (the `qt_widgets` crate), which is not part of this repository.
`initSucceeds` is false exactly when process-wide toolkit initialization
fails (a headless host with no display server); `initFailCode` is the
nonzero status a failed initialization reports to the OS; `execStatus` is
the integer status the blocking event loop returns when it exits. -/
structure ToolkitBehavior where
  initSucceeds : Bool
  initFailCode : Int
  execStatus : Int
  initFailCode_ne_zero : initFailCode ≠ 0

/-- The closure passed to `QApplication::init` in `main` (`main.rs` lines
8-16): construct one widget with `new_0a`, resize it to 320 x 240, set its
title to `helloTitle`, show it, then enter `QApplication::exec`; the
closure returns the event loop's status. The result is the list of toolkit
calls the closure issues together with its return value. -/
def appClosure (b : ToolkitBehavior) : List QtEvent × Int :=
  ([new_0a, resize_2a 320 240, set_window_title helloTitle,
    QtEvent.showCall, QtEvent.execLoop], b.execStatus)

/-- Modelled from the spec: `QApplication::init` of the external
`qt_widgets` crate. It creates the process-wide application context; on
success it runs the supplied closure and the process exits with the
closure's return value (the call never returns to its caller); if the
display environment is unavailable, initialization fails and the process
exits with the toolkit's nonzero failure status before the closure runs.
The result is the full toolkit-call trace of the process and the process
exit status. -/
def qApplicationInit (b : ToolkitBehavior)
    (f : ToolkitBehavior → List QtEvent × Int) : List QtEvent × Int :=
  if b.initSucceeds then
    (QtEvent.initApp :: (f b).1, (f b).2)
  else
    ([QtEvent.initApp], b.initFailCode)

/-- `fn main` of `main.rs`: the single call `QApplication::init(|app| ...)`
with the closure `appClosure`; the binding `let app = ...` is never used
afterwards. -/
def mainRun (b : ToolkitBehavior) : List QtEvent × Int :=
  qApplicationInit b appClosure

/-- The toolkit calls a run of `main` issues, in order. -/
def mainTrace (b : ToolkitBehavior) : List QtEvent := (mainRun b).1

/-- The process exit status of a run of `main`. -/
def mainExit (b : ToolkitBehavior) : Int := (mainRun b).2

/-- Observable state of the one top-level widget. Width and height are
`none` until the first resize (the pre-resize default size belongs to the
toolkit and is not modelled); a fresh `QWidget` has an empty title and is
not visible. -/
structure WidgetState where
  width : Option Int
  height : Option Int
  windowTitle : String
  visible : Bool
deriving DecidableEq, Repr

/-- GUI-side state reached by replaying a trace of toolkit calls. -/
structure GuiState where
  appContexts : Nat
  widgetsCreated : Nat
  widget : Option WidgetState
  loopEntered : Bool
deriving DecidableEq, Repr

/-- State before any toolkit call: no context, no widget, loop not
entered. -/
def initialGuiState : GuiState :=
  { appContexts := 0, widgetsCreated := 0, widget := none,
    loopEntered := false }

/-- Effect of one toolkit call on the GUI-side state. -/
def applyEvent (s : GuiState) : QtEvent → GuiState
  | QtEvent.initApp => { s with appContexts := s.appContexts + 1 }
  | QtEvent.newWidget _ =>
      { s with widgetsCreated := s.widgetsCreated + 1,
               widget := some { width := none, height := none,
                                windowTitle := "", visible := false } }
  | QtEvent.resize w h =>
      { s with widget := (s.widget.map
          fun wd => { wd with width := some w, height := some h }) }
  | QtEvent.setWindowTitle t =>
      { s with widget := (s.widget.map
          fun wd => { wd with windowTitle := t }) }
  | QtEvent.showCall =>
      { s with widget := (s.widget.map
          fun wd => { wd with visible := true }) }
  | QtEvent.execLoop => { s with loopEntered := true }

/-- Replay a list of toolkit calls from the initial state. -/
def runEvents (es : List QtEvent) : GuiState :=
  es.foldl applyEvent initialGuiState

/-- The toolkit calls `main` issues strictly before entering the event
loop. -/
def preLoopTrace (b : ToolkitBehavior) : List QtEvent :=
  (mainTrace b).takeWhile (fun e => e != QtEvent.execLoop)

/-- GUI state at the moment the event loop is entered (or at process exit
when initialization failed and the loop is never entered). -/
def stateAtLoopEntry (b : ToolkitBehavior) : GuiState :=
  runEvents (preLoopTrace b)

/-- Does the call construct a widget? -/
def isNewWidget : QtEvent → Bool
  | QtEvent.newWidget _ => true
  | _ => false

/-- Does the call create the application context? -/
def isInitApp : QtEvent → Bool
  | QtEvent.initApp => true
  | _ => false

/-- Window operations: calls addressed to the widget. -/
def isWindowOp : QtEvent → Bool
  | QtEvent.newWidget _ => true
  | QtEvent.resize _ _ => true
  | QtEvent.setWindowTitle _ => true
  | QtEvent.showCall => true
  | _ => false

/-- A widget construction that passes a non-null parent. -/
def createdWithParent : QtEvent → Bool
  | QtEvent.newWidget (some _) => true
  | _ => false

/-- `a` occurs in `l` strictly before `b` does. -/
abbrev occursBefore (l : List QtEvent) (a b : QtEvent) : Prop :=
  a ∈ l ∧ b ∈ l ∧ l.indexOf a < l.indexOf b

/-- The six toolkit calls of `main.rs`, the only calls the program ever
issues. -/
def allowedEvent (e : QtEvent) : Bool :=
  e == QtEvent.initApp || e == new_0a || e == resize_2a 320 240 ||
  e == set_window_title helloTitle || e == QtEvent.showCall ||
  e == QtEvent.execLoop

/-- A toolkit behaviour of a host where initialization succeeds and the
event loop exits with status `s`. -/
def okBeh (s : Int) : ToolkitBehavior :=
  { initSucceeds := true, initFailCode := 1, execStatus := s,
    initFailCode_ne_zero := by decide }

/-- A headless host: toolkit initialization fails with status 1. -/
def headlessBeh : ToolkitBehavior :=
  { initSucceeds := false, initFailCode := 1, execStatus := 0,
    initFailCode_ne_zero := by decide }

/-- On a run whose initialization succeeds, the trace is the six calls of
`main.rs` in source order. -/
theorem mainTrace_ok (b : ToolkitBehavior) (h : b.initSucceeds = true) :
    mainTrace b = [QtEvent.initApp, new_0a, resize_2a 320 240,
      set_window_title helloTitle, QtEvent.showCall, QtEvent.execLoop] := by
  simp [mainTrace, mainRun, qApplicationInit, appClosure, h]

/-- On a run whose initialization fails, the trace is the initialization
attempt alone. -/
theorem mainTrace_fail (b : ToolkitBehavior) (h : b.initSucceeds = false) :
    mainTrace b = [QtEvent.initApp] := by
  simp [mainTrace, mainRun, qApplicationInit, h]

/-- On a run whose initialization fails, the exit status is the toolkit's
failure status. -/
theorem mainExit_fail (b : ToolkitBehavior) (h : b.initSucceeds = false) :
    mainExit b = b.initFailCode := by
  simp [mainExit, mainRun, qApplicationInit, h]

/-- C1: for every run in which toolkit initialization succeeds and the
blocking event loop exits with status `s`, the process exit status equals
`s`, with no transformation (0 on a clean exit, nonzero on abnormal
termination). -/
theorem exit_status_propagated (b : ToolkitBehavior)
    (h : b.initSucceeds = true) : mainExit b = b.execStatus := by
  simp [mainExit, mainRun, qApplicationInit, appClosure, h]

/-- C1 witness: on a run whose event loop exits with status 7 the process
exits with 7. -/
theorem exit_status_propagated_witness : mainExit (okBeh 7) = 7 :=
  exit_status_propagated (okBeh 7) rfl

/-- C2: at event-loop entry the window's title equals the UTF-8 string
"Hello Qt from Rust!" exactly, on every run that reaches the loop. -/
theorem title_set_before_loop (b : ToolkitBehavior)
    (h : b.initSucceeds = true) :
    (stateAtLoopEntry b).widget.map WidgetState.windowTitle
      = some helloTitle ∧
    helloTitle = "Hello Qt from Rust!" := by
  simp only [stateAtLoopEntry, preLoopTrace, mainTrace_ok b h]
  decide

/-- C2 witness: concrete run with clean exit; the title at loop entry is
the literal. -/
theorem title_set_before_loop_witness :
    (stateAtLoopEntry (okBeh 0)).widget.map WidgetState.windowTitle
      = some helloTitle ∧
    helloTitle = "Hello Qt from Rust!" :=
  title_set_before_loop (okBeh 0) rfl

/-- C3: at event-loop entry the window's dimensions are width 320 and
height 240, on every run that reaches the loop. -/
theorem size_set_before_loop (b : ToolkitBehavior)
    (h : b.initSucceeds = true) :
    (stateAtLoopEntry b).widget.map WidgetState.width
      = some (some 320) ∧
    (stateAtLoopEntry b).widget.map WidgetState.height
      = some (some 240) := by
  simp only [stateAtLoopEntry, preLoopTrace, mainTrace_ok b h]
  decide

/-- C3 witness: concrete run with clean exit; the size at loop entry is
320 x 240. -/
theorem size_set_before_loop_witness :
    (stateAtLoopEntry (okBeh 0)).widget.map WidgetState.width
      = some (some 320) ∧
    (stateAtLoopEntry (okBeh 0)).widget.map WidgetState.height
      = some (some 240) :=
  size_set_before_loop (okBeh 0) rfl

/-- C4: on every run that reaches the loop, the application context is
initialized before the widget is constructed; title set, resize, and show
all occur strictly before event-loop entry; and the window is visible at
loop entry. -/
theorem ordering_constraints (b : ToolkitBehavior)
    (h : b.initSucceeds = true) :
    occursBefore (mainTrace b) QtEvent.initApp new_0a ∧
    occursBefore (mainTrace b) (set_window_title helloTitle)
      QtEvent.execLoop ∧
    occursBefore (mainTrace b) (resize_2a 320 240) QtEvent.execLoop ∧
    occursBefore (mainTrace b) QtEvent.showCall QtEvent.execLoop ∧
    (stateAtLoopEntry b).widget.map WidgetState.visible = some true := by
  simp only [stateAtLoopEntry, preLoopTrace, mainTrace_ok b h]
  decide

/-- C4 witness: the ordering constraints hold on a concrete clean run. -/
theorem ordering_constraints_witness :
    occursBefore (mainTrace (okBeh 0)) QtEvent.initApp new_0a ∧
    occursBefore (mainTrace (okBeh 0)) (set_window_title helloTitle)
      QtEvent.execLoop ∧
    occursBefore (mainTrace (okBeh 0)) (resize_2a 320 240)
      QtEvent.execLoop ∧
    occursBefore (mainTrace (okBeh 0)) QtEvent.showCall QtEvent.execLoop ∧
    (stateAtLoopEntry (okBeh 0)).widget.map WidgetState.visible
      = some true :=
  ordering_constraints (okBeh 0) rfl

/-- C5: on a headless host the failed initialization is fatal: the trace is
the initialization attempt alone, no window operation is issued, the event
loop is never entered, and the process exits with a nonzero status. -/
theorem headless_failure_is_fatal (b : ToolkitBehavior)
    (h : b.initSucceeds = false) :
    mainTrace b = [QtEvent.initApp] ∧
    (mainTrace b).all (fun e => !isWindowOp e) = true ∧
    QtEvent.execLoop ∉ mainTrace b ∧
    mainExit b ≠ 0 := by
  refine ⟨mainTrace_fail b h, ?_, ?_, ?_⟩
  · rw [mainTrace_fail b h]; decide
  · rw [mainTrace_fail b h]; decide
  · rw [mainExit_fail b h]; exact b.initFailCode_ne_zero

/-- C5 witness: on the concrete headless behaviour the run is fatal as
described. -/
theorem headless_failure_is_fatal_witness :
    mainTrace headlessBeh = [QtEvent.initApp] ∧
    (mainTrace headlessBeh).all (fun e => !isWindowOp e) = true ∧
    QtEvent.execLoop ∉ mainTrace headlessBeh ∧
    mainExit headlessBeh ≠ 0 :=
  headless_failure_is_fatal headlessBeh rfl

/-- C6 counterexample: on a headless run (initialization fails) the program
creates no top-level window at all, so it is not the case that every run
creates exactly one top-level window. -/
theorem single_instances_counterexample :
    ¬ (mainTrace headlessBeh).countP isNewWidget = 1 := by decide

/-- C6 amended: every run creates the application context exactly once and
constructs at most one top-level window; every run in which toolkit
initialization succeeds constructs exactly one top-level window. No
operation ever creates a second context or a second window. -/
theorem single_instances (b : ToolkitBehavior) :
    (mainTrace b).countP isInitApp = 1 ∧
    (mainTrace b).countP isNewWidget ≤ 1 ∧
    (b.initSucceeds = true →
      (mainTrace b).countP isNewWidget = 1) := by
  cases h : b.initSucceeds
  · rw [mainTrace_fail b h]
    exact ⟨by decide, by decide, fun hc => by cases hc⟩
  · rw [mainTrace_ok b h]
    exact ⟨by decide, by decide, fun hc => by decide⟩

/-- C6 witness: on a concrete clean run the context is created once and
exactly one window is constructed. -/
theorem single_instances_witness :
    (mainTrace (okBeh 0)).countP isInitApp = 1 ∧
    (mainTrace (okBeh 0)).countP isNewWidget ≤ 1 ∧
    (mainTrace (okBeh 0)).countP isNewWidget = 1 :=
  ⟨(single_instances (okBeh 0)).1, (single_instances (okBeh 0)).2.1,
    (single_instances (okBeh 0)).2.2 rfl⟩

/-- C7: the widget is constructed parentless: no run ever issues a widget
construction carrying a parent, and every run that reaches the loop issues
the zero-argument construction `new_0a` (default parent none). -/
theorem window_parentless (b : ToolkitBehavior) :
    (mainTrace b).all (fun e => !createdWithParent e) = true ∧
    (b.initSucceeds = true → new_0a ∈ mainTrace b) := by
  cases h : b.initSucceeds
  · rw [mainTrace_fail b h]
    exact ⟨by decide, fun hc => by cases hc⟩
  · rw [mainTrace_ok b h]
    exact ⟨by decide, fun hc => by decide⟩

/-- C7 witness: on a concrete clean run the parentless construction occurs
and no construction with a parent does. -/
theorem window_parentless_witness :
    (mainTrace (okBeh 0)).all (fun e => !createdWithParent e) = true ∧
    new_0a ∈ mainTrace (okBeh 0) :=
  ⟨(window_parentless (okBeh 0)).1, (window_parentless (okBeh 0)).2 rfl⟩

/-- C8: the window is blank and nothing else is composed: every toolkit
call of every run is one of the six calls of `main.rs`, and at most one
widget is ever created (no child widgets, no other output). -/
theorem blank_window_no_composition (b : ToolkitBehavior) :
    (mainTrace b).all allowedEvent = true ∧
    (mainTrace b).countP isNewWidget ≤ 1 := by
  cases h : b.initSucceeds
  · rw [mainTrace_fail b h]; exact ⟨by decide, by decide⟩
  · rw [mainTrace_ok b h]; exact ⟨by decide, by decide⟩

/-- C9: on every run that reaches the loop, show is issued after both the
resize and the title set, show is the last window operation before the
event loop, and event-loop entry is the final toolkit call of the run (no
window operation after the loop returns). -/
theorem show_last_before_loop (b : ToolkitBehavior)
    (h : b.initSucceeds = true) :
    occursBefore (mainTrace b) (resize_2a 320 240) QtEvent.showCall ∧
    occursBefore (mainTrace b) (set_window_title helloTitle)
      QtEvent.showCall ∧
    occursBefore (mainTrace b) QtEvent.showCall QtEvent.execLoop ∧
    ((mainTrace b).filter isWindowOp).getLast?
      = some QtEvent.showCall ∧
    (mainTrace b).getLast? = some QtEvent.execLoop := by
  rw [mainTrace_ok b h]
  decide

/-- C9 witness: the show-last ordering holds on a concrete clean run. -/
theorem show_last_before_loop_witness :
    occursBefore (mainTrace (okBeh 0)) (resize_2a 320 240)
      QtEvent.showCall ∧
    occursBefore (mainTrace (okBeh 0)) (set_window_title helloTitle)
      QtEvent.showCall ∧
    occursBefore (mainTrace (okBeh 0)) QtEvent.showCall
      QtEvent.execLoop ∧
    ((mainTrace (okBeh 0)).filter isWindowOp).getLast?
      = some QtEvent.showCall ∧
    (mainTrace (okBeh 0)).getLast? = some QtEvent.execLoop :=
  show_last_before_loop (okBeh 0) rfl

/-- C10: the program reads no input of its own: any two runs in which
initialization succeeds issue the identical sequence of toolkit calls, in
particular the identical pre-loop sequence, whatever the toolkit's
event-loop status. -/
theorem deterministic_call_sequence (a b : ToolkitBehavior)
    (ha : a.initSucceeds = true) (hb : b.initSucceeds = true) :
    mainTrace a = mainTrace b ∧ preLoopTrace a = preLoopTrace b := by
  constructor
  · rw [mainTrace_ok a ha, mainTrace_ok b hb]
  · simp only [preLoopTrace, mainTrace_ok a ha, mainTrace_ok b hb]

/-- C10 witness: two concrete runs with different event-loop statuses
issue identical call sequences. -/
theorem deterministic_call_sequence_witness :
    mainTrace (okBeh 0) = mainTrace (okBeh 5) ∧
    preLoopTrace (okBeh 0) = preLoopTrace (okBeh 5) :=
  deterministic_call_sequence (okBeh 0) (okBeh 5) rfl rfl
